import Mathlib

/-!
# Verification of the slack-archive-tool eligibility filter and batch operator

Shallow embedding of `src/slack_archive.py`:

* `load_channels_from_csv` — the eligibility filter (exclusion rules,
  per-rule counters, derived `days_inactive`, final stable sort);
* `post_notification` — composition of the cleanup-notice message
  (50-entry enumeration cap and the truncation notice);
* `archive_channels` — the per-record verify-then-mutate batch loop and
  its Run Statistics counters.

The CSV reader, the network client and logging are external collaborators:
rows arrive as records of raw strings, and the remote service is modelled
as a per-record outcome (the responses its two calls would return).
Python naive `datetime` values are modelled by the `DateTime` structure
with field-lexicographic comparison; `datetime.strptime` with the fixed
format `%a, %d %b %Y %H:%M:%S` and `int()` on decimal strings are modelled
character by character after CPython's behaviour.
-/

namespace SlackArchive

/-- A naive `datetime.datetime` value (no timezone, microseconds unused by
the program: `strptime` with the program's format always yields 0). -/
structure DateTime where
  year : Nat
  month : Nat
  day : Nat
  hour : Nat
  minute : Nat
  second : Nat
deriving DecidableEq, Repr

/-- Python `datetime <= datetime`: field-lexicographic comparison. -/
def dtLE (a b : DateTime) : Bool :=
  if a.year ≠ b.year then decide (a.year < b.year)
  else if a.month ≠ b.month then decide (a.month < b.month)
  else if a.day ≠ b.day then decide (a.day < b.day)
  else if a.hour ≠ b.hour then decide (a.hour < b.hour)
  else if a.minute ≠ b.minute then decide (a.minute < b.minute)
  else decide (a.second ≤ b.second)

/-- Python `datetime < datetime`: field-lexicographic comparison. -/
def dtLT (a b : DateTime) : Bool :=
  if a.year ≠ b.year then decide (a.year < b.year)
  else if a.month ≠ b.month then decide (a.month < b.month)
  else if a.day ≠ b.day then decide (a.day < b.day)
  else if a.hour ≠ b.hour then decide (a.hour < b.hour)
  else if a.minute ≠ b.minute then decide (a.minute < b.minute)
  else decide (a.second < b.second)

/-- The Gregorian leap-year rule used by Python's `datetime`. -/
def isLeapYear (y : Nat) : Bool :=
  y % 4 == 0 && (y % 100 != 0 || y % 400 == 0)

/-- Number of days in a month, as validated by the `datetime` constructor. -/
def daysInMonth (y m : Nat) : Nat :=
  if m == 2 then (if isLeapYear y then 29 else 28)
  else if m == 4 || m == 6 || m == 9 || m == 11 then 30
  else 31

/-- Days from 1970-01-01 to the civil date `(y, m, d)` in the proleptic
Gregorian calendar (the count underlying `datetime` subtraction). -/
def daysFromCivil (y m d : Int) : Int :=
  let y2 := if m ≤ 2 then y - 1 else y
  let era := y2.fdiv 400
  let yoe := y2 - era * 400
  let doy := (153 * (if 2 < m then m - 3 else m + 9) + 2).fdiv 5 + d - 1
  let doe := yoe * 365 + yoe.fdiv 4 - yoe.fdiv 100 + doy
  era * 146097 + doe - 719468

/-- Civil date from a day count (inverse of `daysFromCivil`), used to model
`datetime + timedelta(days=n)`. -/
def civilFromDays (z0 : Int) : Int × Int × Int :=
  let z := z0 + 719468
  let era := z.fdiv 146097
  let doe := z - era * 146097
  let yoe := (doe - doe.fdiv 1460 + doe.fdiv 36524 - doe.fdiv 146096).fdiv 365
  let y := yoe + era * 400
  let doy := doe - (365 * yoe + yoe.fdiv 4 - yoe.fdiv 100)
  let mp := (5 * doy + 2).fdiv 153
  let d := doy - (153 * mp + 2).fdiv 5 + 1
  let m := if mp < 10 then mp + 3 else mp - 9
  (if m ≤ 2 then y + 1 else y, m, d)

/-- Seconds from the epoch to a `DateTime` (the linearisation underlying
`datetime` subtraction). -/
def DateTime.toSec (dt : DateTime) : Int :=
  daysFromCivil dt.year dt.month dt.day * 86400
    + dt.hour * 3600 + dt.minute * 60 + dt.second

/-- `(a - b).days` for naive datetimes: Python's `timedelta` normalises with
floor semantics, so `.days` is the floor of the difference in days. -/
def daysBetween (a b : DateTime) : Int :=
  (a.toSec - b.toSec).fdiv 86400

/-- `dt + timedelta(days=n)`: shift the civil date, keep the time fields. -/
def addDays (dt : DateTime) (n : Int) : DateTime :=
  let c := civilFromDays (daysFromCivil dt.year dt.month dt.day + n)
  { dt with year := c.1.toNat, month := c.2.1.toNat, day := c.2.2.toNat }

/-! ## Python string primitives -/

/-- ASCII lower-casing, modelling `str.lower()` on the ASCII inputs the
program compares (`'true'` literals and channel names). -/
def pyLower (s : String) : String := ⟨s.data.map Char.toLower⟩

def isAsciiDigit (c : Char) : Bool := '0' ≤ c && c ≤ '9'

def digitVal (c : Char) : Nat := c.toNat - 48

/-- Whitespace stripped by Python `int()`. -/
def isPySpace (c : Char) : Bool :=
  c == ' ' || c == '\t' || c == '\n' || c == '\r' || c == '\x0b' || c == '\x0c'

/-- Models Python `int()` on a decimal string: optional surrounding
whitespace, one optional sign, then a nonempty run of ASCII digits
(underscore digit separators and non-ASCII digits are not modelled). -/
def pyInt (s : String) : Option Int :=
  let cs := ((s.toList.dropWhile isPySpace).reverse.dropWhile isPySpace).reverse
  match cs with
  | [] => none
  | c :: rest =>
    let p : Bool × List Char :=
      if c = '-' then (true, rest)
      else if c = '+' then (false, rest)
      else (false, cs)
    if p.2 ≠ [] && p.2.all isAsciiDigit then
      let n : Nat := p.2.foldl (fun a d => a * 10 + digitVal d) 0
      some (if p.1 then -(n : Int) else (n : Int))
    else none

/-! ## strptime model

`datetime.strptime(s, '%a, %d %b %Y %H:%M:%S')`, following CPython's
`_strptime`: names match case-insensitively, each numeric directive matches
the regex CPython builds for it (two digits preferred, single digit
fallback), literal whitespace in the format matches a nonempty whitespace
run, the whole string must be consumed, and the resulting fields must form
a valid `datetime` (day within the month, second ≤ 59). -/

def weekdayAbbrs : List (List Char) :=
  [['m','o','n'], ['t','u','e'], ['w','e','d'], ['t','h','u'],
   ['f','r','i'], ['s','a','t'], ['s','u','n']]

def monthAbbrs : List (List Char) :=
  [['j','a','n'], ['f','e','b'], ['m','a','r'], ['a','p','r'],
   ['m','a','y'], ['j','u','n'], ['j','u','l'], ['a','u','g'],
   ['s','e','p'], ['o','c','t'], ['n','o','v'], ['d','e','c']]

/-- Case-insensitive match of a fixed lowercase keyword. -/
def matchKeyword : List Char → List Char → Option (List Char)
  | [], rest => some rest
  | _ :: _, [] => none
  | k :: ks, c :: rest => if c.toLower = k then matchKeyword ks rest else none

/-- Try keywords in order, returning the 0-based index of the first match. -/
def matchAny : List (List Char) → Nat → List Char → Option (Nat × List Char)
  | [], _, _ => none
  | k :: ks, i, cs =>
    match matchKeyword k cs with
    | some rest => some (i, rest)
    | none => matchAny ks (i + 1) cs

/-- A numeric directive: prefer two digits when their value satisfies
`okTwo`, else fall back to one digit satisfying `okOne` (mirrors the
regex alternations CPython builds for `%d`, `%H`, `%M`, `%S`). -/
def readNum (okTwo okOne : Nat → Bool) : List Char → Option (Nat × List Char)
  | [] => none
  | [c] => if isAsciiDigit c && okOne (digitVal c) then some (digitVal c, []) else none
  | c1 :: c2 :: rest =>
    if isAsciiDigit c1 then
      if isAsciiDigit c2 && okTwo (digitVal c1 * 10 + digitVal c2) then
        some (digitVal c1 * 10 + digitVal c2, rest)
      else if okOne (digitVal c1) then some (digitVal c1, c2 :: rest)
      else none
    else none

/-- `%Y`: exactly four digits. -/
def readYear : List Char → Option (Nat × List Char)
  | c1 :: c2 :: c3 :: c4 :: rest =>
    if isAsciiDigit c1 && isAsciiDigit c2 && isAsciiDigit c3 && isAsciiDigit c4 then
      some (((digitVal c1 * 10 + digitVal c2) * 10 + digitVal c3) * 10 + digitVal c4, rest)
    else none
  | _ => none

/-- Literal whitespace in the format: matches one or more whitespace chars. -/
def readWS (cs : List Char) : Option (List Char) :=
  match cs with
  | c :: rest => if isPySpace c then some (rest.dropWhile isPySpace) else none
  | [] => none

/-- A literal character of the format. -/
def readChar (ch : Char) (cs : List Char) : Option (List Char) :=
  match cs with
  | c :: rest => if c = ch then some rest else none
  | [] => none

/-- `strptime` with format `'%a, %d %b %Y %H:%M:%S'` on a character list. -/
def parseFormatted (cs : List Char) : Option DateTime := do
  let (_, r) ← matchAny weekdayAbbrs 0 cs
  let r ← readChar ',' r
  let r ← readWS r
  let (d, r) ← readNum (fun v => decide (1 ≤ v ∧ v ≤ 31)) (fun v => decide (1 ≤ v ∧ v ≤ 9)) r
  let r ← readWS r
  let (m0, r) ← matchAny monthAbbrs 0 r
  let r ← readWS r
  let (y, r) ← readYear r
  let r ← readWS r
  let (h, r) ← readNum (fun v => decide (v ≤ 23)) (fun _ => true) r
  let r ← readChar ':' r
  let (mi, r) ← readNum (fun v => decide (v ≤ 59)) (fun _ => true) r
  let r ← readChar ':' r
  let (s, r) ← readNum (fun v => decide (v ≤ 61)) (fun _ => true) r
  if r = [] then
    -- `datetime` constructor validation
    if 1 ≤ y ∧ d ≤ daysInMonth y (m0 + 1) ∧ s ≤ 59 then
      some ⟨y, m0 + 1, d, h, mi, s⟩
    else none
  else none

/-- `s.split(' -')[0]`: the characters before the first occurrence of
the two-character separator, or the whole string when absent. -/
def beforeDash : List Char → List Char
  | [] => []
  | ' ' :: '-' :: _ => []
  | c :: rest => c :: beforeDash rest

/-- The program's timestamp parse:
`datetime.strptime(s.split(' -')[0], '%a, %d %b %Y %H:%M:%S')`. -/
def parseLastActivity (s : String) : Option DateTime :=
  parseFormatted (beforeDash s.data)

/-! ## The eligibility filter: `load_channels_from_csv` -/

/-- One CSV row, as handed over by `csv.DictReader` (all required columns
present, every field a raw string). -/
structure Row where
  Name : String
  ID : String
  Members : String
  LastActivity : String
  Private : String
  Archived : String
deriving DecidableEq, Repr

/-- A Candidate Record: the dict appended by `load_channels_from_csv`. -/
structure Channel where
  name : String
  id : String
  members : Int
  last_activity : DateTime
  days_inactive : Int
deriving DecidableEq, Repr

/-- The load-pass counters (`stats` in `load_channels_from_csv`). -/
structure LoadStats where
  total : Nat
  skipped_private : Nat
  skipped_archived : Nat
  skipped_protected : Nat
  skipped_members : Nat
  skipped_active : Nat
  parse_errors : Nat
deriving DecidableEq, Repr

def LoadStats.init : LoadStats := ⟨0, 0, 0, 0, 0, 0, 0⟩

/-- The fixed protect-list (`protected_channels`). -/
def protectedChannels : List String :=
  ["general", "random", "announcements", "compliance", "team-tech",
   "fetch", "collective-leads", "team-marketing", "team-devops"]

/-- The activity cutoff `july_2_2025 = datetime(2025, 7, 2)`. -/
def july_2_2025 : DateTime := ⟨2025, 7, 2, 0, 0, 0⟩

/-- `int(row['Members']) if row['Members'] else 0`. -/
def parseMembers (s : String) : Option Int :=
  if s = "" then some 0 else pyInt s

/-- What the per-row `try` body does with one row. -/
inductive RowResult where
  | skippedPrivate
  | skippedArchived
  | skippedProtected
  | skippedMembers
  | skippedActive
  | parseError
  | candidate (c : Channel)
deriving DecidableEq, Repr

/-- `is_private = row.get('Private', '').lower() == 'true'`. -/
def is_private (row : Row) : Bool := pyLower row.Private == "true"

/-- `is_archived = row.get('Archived', '').lower() == 'true'`. -/
def is_archived (row : Row) : Bool := pyLower row.Archived == "true"

/-- `name.lower() in protected_channels`. -/
def is_protected (row : Row) : Bool := protectedChannels.contains (pyLower row.Name)

/-- The per-row `try` body of `load_channels_from_csv`: the member-count
parse comes first (its `ValueError` ends the row before any rule is
checked), then the four flag/name/count rules in order, then the
timestamp parse, then the activity rule. `now` is the observation time
(`datetime.now()`) used for `days_inactive`. -/
def processRow (now : DateTime) (row : Row) : RowResult :=
  match parseMembers row.Members with
  | none => .parseError
  | some members =>
    if is_private row then .skippedPrivate
    else if is_archived row then .skippedArchived
    else if is_protected row then .skippedProtected
    else if 4 < members then .skippedMembers
    else
      match parseLastActivity row.LastActivity with
      | none => .parseError
      | some la =>
        if dtLE july_2_2025 la then .skippedActive
        else .candidate
          { name := row.Name
            id := row.ID
            members := members
            last_activity := la
            days_inactive := daysBetween now la }

/-- Record one row's outcome into the accumulated list and counters. -/
def applyRowResult (cs : List Channel) (st : LoadStats) : RowResult → List Channel × LoadStats
  | .skippedPrivate => (cs, { st with skipped_private := st.skipped_private + 1 })
  | .skippedArchived => (cs, { st with skipped_archived := st.skipped_archived + 1 })
  | .skippedProtected => (cs, { st with skipped_protected := st.skipped_protected + 1 })
  | .skippedMembers => (cs, { st with skipped_members := st.skipped_members + 1 })
  | .skippedActive => (cs, { st with skipped_active := st.skipped_active + 1 })
  | .parseError => (cs, { st with parse_errors := st.parse_errors + 1 })
  | .candidate c => (cs ++ [c], st)

/-- One iteration of the row loop (`stats['total'] += 1` then the body). -/
def loadStep (now : DateTime) (acc : List Channel × LoadStats) (row : Row) :
    List Channel × LoadStats :=
  applyRowResult acc.1 { acc.2 with total := acc.2.total + 1 } (processRow now row)

/-- The sort key `lambda x: (x['members'], -x['days_inactive'])`. -/
def chanKey (c : Channel) : Int × Int := (c.members, -c.days_inactive)

/-- Lexicographic `<=` on Python pairs of ints. -/
def keyLE (p q : Int × Int) : Bool :=
  if p.1 < q.1 then true
  else if p.1 = q.1 then decide (p.2 ≤ q.2)
  else false

/-- The comparison `channels.sort` orders by. -/
def chanLE (a b : Channel) : Bool := keyLE (chanKey a) (chanKey b)

/-- `load_channels_from_csv`, given the observation time and the parsed
CSV rows (the file read and `csv.DictReader` are the external
collaborator; a missing/unreadable file returns `([], stats)` before any
row is processed and is not modelled further). `list.sort` is a stable
sort by the key above, modelled by the stable `List.mergeSort`. -/
def load_channels_from_csv (now : DateTime) (rows : List Row) :
    List Channel × LoadStats :=
  let r := rows.foldl (loadStep now) ([], LoadStats.init)
  (r.1.mergeSort chanLE, r.2)

/-- The Candidate Record a row contributes, if any. -/
def toCandidate (now : DateTime) (row : Row) : Option Channel :=
  match processRow now row with
  | .candidate c => some c
  | _ => none

/-! ## The notify action: message composition in `post_notification` -/

def monthAbbrCap : List String :=
  ["Jan", "Feb", "Mar", "Apr", "May", "Jun", "Jul", "Aug", "Sep", "Oct", "Nov", "Dec"]

def monthFull : List String :=
  ["January", "February", "March", "April", "May", "June", "July",
   "August", "September", "October", "November", "December"]

/-- Zero-padded two-digit field (`%d` in `strftime`). -/
def two (n : Nat) : String := if n < 10 then "0" ++ toString n else toString n

/-- `strftime('%b %d, %Y')` (the per-line last-active date). -/
def strftime_bdY (dt : DateTime) : String :=
  (monthAbbrCap.getD (dt.month - 1) "") ++ " " ++ two dt.day ++ ", " ++ toString dt.year

/-- `strftime('%B %d, %Y')` (the archive-date announcement). -/
def strftime_BdY (dt : DateTime) : String :=
  (monthFull.getD (dt.month - 1) "") ++ " " ++ two dt.day ++ ", " ++ toString dt.year

/-- `strftime('%B %d')` (the opt-out deadline). -/
def strftime_Bd (dt : DateTime) : String :=
  (monthFull.getD (dt.month - 1) "") ++ " " ++ two dt.day

/-- One enumerated line of the notification:
`f"{i}. #{channel['name']} ({channel['members']} members, last active: {last_active})\n"`. -/
def channelLine (i : Nat) (c : Channel) : String :=
  toString i ++ ". #" ++ c.name ++ " (" ++ toString c.members
    ++ " members, last active: " ++ strftime_bdY c.last_activity ++ ")\n"

/-- The `for i, channel in enumerate(channels[:50], 1)` loop: append one
line per channel of the capped list, indices counting from `i`. -/
def chLines : Nat → List Channel → String
  | _, [] => ""
  | i, c :: cs => channelLine i c ++ chLines (i + 1) cs

/-- The `if len(channels) > 50` truncation notice. -/
def truncLine (channels : List Channel) : String :=
  if 50 < channels.length then
    "\n... and " ++ toString (channels.length - 50) ++ " more channels\n"
  else ""

/-- The fixed preamble of the message (`f"""SLACK WORKSPACE CLEANUP..."""`). -/
def notificationHeader (now : DateTime) (channels : List Channel) : String :=
  "SLACK WORKSPACE CLEANUP - 3 DAY NOTICE\n\nThe following "
    ++ toString channels.length ++ " channels will be archived on "
    ++ strftime_BdY (addDays now 3)
    ++ ".\n\nChannels meet both criteria:\n- Four (4) or fewer members\n- No activity between July 2 - August 2, 2025\n\nChannels scheduled for archival:\n"

/-- The opt-out footer appended after the list. -/
def notificationFooter (now : DateTime) : String :=
  "\nTO OPT-OUT:\nContact ITOps with the channel name by "
    ++ strftime_Bd (addDays now 2)
    ++ "\n\nNote: Channels will be archived (not deleted). All content remains accessible and can be unarchived if needed.\n"

/-- The complete message text `post_notification` sends: preamble, the
enumerated first-50 list, the conditional truncation notice, the footer.
(Channel resolution and the actual `chat_postMessage` are remote calls,
out of the composition being specified.) -/
def notificationMessage (now : DateTime) (channels : List Channel) : String :=
  notificationHeader now channels
    ++ chLines 1 (channels.take 50)
    ++ truncLine channels
    ++ notificationFooter now

/-! ## Rule-classification predicates

Spec-side descriptions of which rule is the first match for a row,
including the two parse points the code interleaves with the rules. -/

/-- Rule 1 (private) fires: the member count parses and the flag is set. -/
def firstMatchPrivate (row : Row) : Bool :=
  (parseMembers row.Members).isSome && is_private row

/-- Rule 2 (archived) fires first. -/
def firstMatchArchived (row : Row) : Bool :=
  (parseMembers row.Members).isSome && (!is_private row && is_archived row)

/-- Rule 3 (protected name) fires first. -/
def firstMatchProtected (row : Row) : Bool :=
  (parseMembers row.Members).isSome &&
    (!is_private row && !is_archived row && is_protected row)

/-- Rule 4 (`member_count > 4`) fires first. -/
def firstMatchMembers (row : Row) : Bool :=
  match parseMembers row.Members with
  | some m => !is_private row && !is_archived row && !is_protected row && decide (4 < m)
  | none => false

/-- Rule 5 (activity on/after the cutoff) fires first. -/
def firstMatchActive (row : Row) : Bool :=
  match parseMembers row.Members, parseLastActivity row.LastActivity with
  | some m, some la =>
    !is_private row && !is_archived row && !is_protected row &&
      decide (m ≤ 4) && dtLE july_2_2025 la
  | _, _ => false

/-- The row throws during parsing: unparseable member count, or rules 1–4
pass and the timestamp is unparseable. -/
def rowParseError (row : Row) : Bool :=
  match parseMembers row.Members with
  | none => true
  | some m =>
    !is_private row && !is_archived row && !is_protected row &&
      decide (m ≤ 4) && (parseLastActivity row.LastActivity).isNone

/-! ## The archive action: `archive_channels` -/

/-- Run Statistics of the archive action. -/
structure RunStats where
  processed : Nat
  successful : Nat
  failed : Nat
  skipped : Nat
deriving DecidableEq, Repr

def RunStats.init : RunStats := ⟨0, 0, 0, 0⟩

/-- Remote outcome of the verify call `conversations_info`. -/
inductive InfoRes where
  | ok (is_archived : Bool) (num_members : Int)
  | apiErr (code : String)
  | exn
deriving DecidableEq, Repr

/-- Remote outcome of the mutate call `conversations_archive`. -/
inductive ArchRes where
  | ok
  | apiErr (code : String)
  | exn
deriving DecidableEq, Repr

/-- The remote behaviour one record's calls would observe; `arch` is
consulted only when the record reaches the mutate call. -/
structure Outcome where
  info : InfoRes
  arch : ArchRes
deriving DecidableEq, Repr

/-- The verify step succeeded and did not report the channel archived. -/
def eligibleInfo : InfoRes → Bool
  | .ok false _ => true
  | _ => false

/-- The body of the per-record loop in `archive_channels`: returns the
updated counters and whether `conversations_archive` was invoked for the
record. A `SlackApiError` from either call lands in the same handler:
`failed += 1`, then the code `'already_archived'` is reclassified as
skipped (`skipped += 1; failed -= 1`); other codes only change the log
line. Any non-remote exception is counted as failed. The member-count
drift warning and the `time.sleep(0.5)` pacing have no counter effect. -/
def archiveStep (dry_run : Bool) (o : Outcome) (s : RunStats) : RunStats × Bool :=
  let s := { s with processed := s.processed + 1 }
  match o.info with
  | .apiErr code =>
    let s := { s with failed := s.failed + 1 }
    if code == "already_archived" then
      ({ s with skipped := s.skipped + 1, failed := s.failed - 1 }, false)
    else (s, false)
  | .exn => ({ s with failed := s.failed + 1 }, false)
  | .ok is_arch _num =>
    if is_arch then ({ s with skipped := s.skipped + 1 }, false)
    else if dry_run then ({ s with successful := s.successful + 1 }, false)
    else
      match o.arch with
      | .ok => ({ s with successful := s.successful + 1 }, true)
      | .apiErr code =>
        let s := { s with failed := s.failed + 1 }
        if code == "already_archived" then
          ({ s with skipped := s.skipped + 1, failed := s.failed - 1 }, true)
        else (s, true)
      | .exn => ({ s with failed := s.failed + 1 }, true)

/-- `archive_channels` over a batch paired with each record's remote
behaviour: sequential, no retry, no early abort. Returns the Run
Statistics and the per-record trace of whether the mutate call was
invoked. -/
def archive_channels (dry_run : Bool) (batch : List (Channel × Outcome)) :
    RunStats × List Bool :=
  batch.foldl
    (fun acc r =>
      let s := archiveStep dry_run r.2 acc.1
      (s.1, acc.2 ++ [s.2]))
    (RunStats.init, [])

/-! ## Concrete inputs used in witnesses and counterexamples -/

/-- A fixed observation time (`datetime.now()` stand-in). -/
def now0 : DateTime := ⟨2025, 8, 28, 0, 0, 0⟩

def w1row : Row :=
  ⟨"secret-channel", "C001", "2", "Mon, 01 Jun 2025 10:00:00 -0700", "True", "False"⟩

def w2rowA : Row :=
  ⟨"alpha", "C002", "2", "Mon, 01 Jun 2025 10:00:00 -0700", "False", "False"⟩

def w2rowB : Row :=
  ⟨"beta", "C003", "2", "Mon, 01 Jun 2025 10:00:00 -0700", "False", "False"⟩

def w2ca : Channel := ⟨"alpha", "C002", 2, ⟨2025, 6, 1, 10, 0, 0⟩, 87⟩

def w2cb : Channel := ⟨"beta", "C003", 2, ⟨2025, 6, 1, 10, 0, 0⟩, 87⟩

/-- Private row whose member count does not parse. -/
def c5row : Row :=
  ⟨"secret-channel", "C005", "abc", "Mon, 01 Jun 2025 10:00:00 -0700", "True", "False"⟩

def w6row : Row :=
  ⟨"old-channel", "C006", "3", "Mon, 01 Jun 2025 10:00:00 -0700", "False", "False"⟩

/-- Row whose last activity is exactly the cutoff instant. -/
def w6late : Row :=
  ⟨"boundary-channel", "C007", "3", "Wed, 02 Jul 2025 00:00:00 -0700", "False", "False"⟩

/-- Private row whose timestamp does not parse. -/
def c7row : Row := ⟨"hidden-channel", "C008", "2", "never", "True", "False"⟩

def w7bad : Row :=
  ⟨"bad-members", "C009", "NOT_A_NUMBER", "Mon, 01 Jun 2025 10:00:00 -0700", "False", "False"⟩

def w7good : Row :=
  ⟨"good-channel", "C010", "2", "Mon, 01 Jun 2025 10:00:00 -0700", "False", "False"⟩

/-- Verify step reports the channel already archived. -/
def w3verify : Outcome := ⟨.ok true 2, .ok⟩

/-- Verify passes; the mutate call fails with `already_archived`. -/
def w3mutate : Outcome := ⟨.ok false 2, .apiErr "already_archived"⟩

def w9ch : Channel := ⟨"test-channel", "C011", 2, ⟨2025, 6, 1, 10, 0, 0⟩, 87⟩

/-! ## Lexicographic comparison facts for `DateTime` -/

theorem ifne_lex (x y : Nat) (tb eb tb' eb' : Bool)
    (hne : x ≠ y → tb = !tb') (heq : x = y → eb = !eb') :
    (if x ≠ y then tb else eb) = !(if y ≠ x then tb' else eb') := by
  by_cases h : x = y
  · rw [if_neg (not_not_intro h), if_neg (not_not_intro h.symm)]; exact heq h
  · rw [if_pos h, if_pos (fun e => h e.symm)]; exact hne h

theorem dtLT_eq_not_dtLE (a b : DateTime) : dtLT a b = !dtLE b a := by
  simp only [dtLT, dtLE]
  refine ifne_lex _ _ _ _ _ _
    (fun h1 => by rw [← decide_not, decide_eq_decide]; omega) (fun h1 => ?_)
  refine ifne_lex _ _ _ _ _ _
    (fun h2 => by rw [← decide_not, decide_eq_decide]; omega) (fun h2 => ?_)
  refine ifne_lex _ _ _ _ _ _
    (fun h3 => by rw [← decide_not, decide_eq_decide]; omega) (fun h3 => ?_)
  refine ifne_lex _ _ _ _ _ _
    (fun h4 => by rw [← decide_not, decide_eq_decide]; omega) (fun h4 => ?_)
  refine ifne_lex _ _ _ _ _ _
    (fun h5 => by rw [← decide_not, decide_eq_decide]; omega) (fun h5 => ?_)
  rw [← decide_not, decide_eq_decide]; omega

/-! ## Classification lemmas for the per-row body -/

theorem processRow_private (now : DateTime) (row : Row) :
    processRow now row = RowResult.skippedPrivate ↔ firstMatchPrivate row = true := by
  unfold processRow firstMatchPrivate
  cases hm : parseMembers row.Members with
  | none => simp
  | some m =>
    cases hla : parseLastActivity row.LastActivity with
    | none =>
      by_cases h1 : is_private row <;> by_cases h2 : is_archived row <;>
        by_cases h3 : is_protected row <;> by_cases h4 : 4 < m <;>
        simp [h1, h2, h3, h4]
    | some la =>
      by_cases h1 : is_private row <;> by_cases h2 : is_archived row <;>
        by_cases h3 : is_protected row <;> by_cases h4 : 4 < m <;>
        by_cases h5 : dtLE july_2_2025 la <;>
        simp [h1, h2, h3, h4, h5]

theorem processRow_archived (now : DateTime) (row : Row) :
    processRow now row = RowResult.skippedArchived ↔ firstMatchArchived row = true := by
  unfold processRow firstMatchArchived
  cases hm : parseMembers row.Members with
  | none => simp
  | some m =>
    cases hla : parseLastActivity row.LastActivity with
    | none =>
      by_cases h1 : is_private row <;> by_cases h2 : is_archived row <;>
        by_cases h3 : is_protected row <;> by_cases h4 : 4 < m <;>
        simp [h1, h2, h3, h4]
    | some la =>
      by_cases h1 : is_private row <;> by_cases h2 : is_archived row <;>
        by_cases h3 : is_protected row <;> by_cases h4 : 4 < m <;>
        by_cases h5 : dtLE july_2_2025 la <;>
        simp [h1, h2, h3, h4, h5]

theorem processRow_protected (now : DateTime) (row : Row) :
    processRow now row = RowResult.skippedProtected ↔ firstMatchProtected row = true := by
  unfold processRow firstMatchProtected
  cases hm : parseMembers row.Members with
  | none => simp
  | some m =>
    cases hla : parseLastActivity row.LastActivity with
    | none =>
      by_cases h1 : is_private row <;> by_cases h2 : is_archived row <;>
        by_cases h3 : is_protected row <;> by_cases h4 : 4 < m <;>
        simp [h1, h2, h3, h4]
    | some la =>
      by_cases h1 : is_private row <;> by_cases h2 : is_archived row <;>
        by_cases h3 : is_protected row <;> by_cases h4 : 4 < m <;>
        by_cases h5 : dtLE july_2_2025 la <;>
        simp [h1, h2, h3, h4, h5]

theorem processRow_members (now : DateTime) (row : Row) :
    processRow now row = RowResult.skippedMembers ↔ firstMatchMembers row = true := by
  unfold processRow firstMatchMembers
  cases hm : parseMembers row.Members with
  | none => simp
  | some m =>
    cases hla : parseLastActivity row.LastActivity with
    | none =>
      by_cases h1 : is_private row <;> by_cases h2 : is_archived row <;>
        by_cases h3 : is_protected row <;> by_cases h4 : 4 < m <;>
        simp [h1, h2, h3, h4]
    | some la =>
      by_cases h1 : is_private row <;> by_cases h2 : is_archived row <;>
        by_cases h3 : is_protected row <;> by_cases h4 : 4 < m <;>
        by_cases h5 : dtLE july_2_2025 la <;>
        simp [h1, h2, h3, h4, h5]

theorem processRow_active (now : DateTime) (row : Row) :
    processRow now row = RowResult.skippedActive ↔ firstMatchActive row = true := by
  unfold processRow firstMatchActive
  cases hm : parseMembers row.Members with
  | none => simp
  | some m =>
    cases hla : parseLastActivity row.LastActivity with
    | none =>
      by_cases h1 : is_private row <;> by_cases h2 : is_archived row <;>
        by_cases h3 : is_protected row <;> by_cases h4 : 4 < m <;>
        simp [h1, h2, h3, h4]
    | some la =>
      by_cases h1 : is_private row <;> by_cases h2 : is_archived row <;>
        by_cases h3 : is_protected row <;> by_cases h4 : 4 < m <;>
        by_cases h5 : dtLE july_2_2025 la <;>
        simp [h1, h2, h3, h4, h5, Int.not_lt] <;> omega

theorem processRow_parseError (now : DateTime) (row : Row) :
    processRow now row = RowResult.parseError ↔ rowParseError row = true := by
  unfold processRow rowParseError
  cases hm : parseMembers row.Members with
  | none => simp
  | some m =>
    cases hla : parseLastActivity row.LastActivity with
    | none =>
      by_cases h1 : is_private row <;> by_cases h2 : is_archived row <;>
        by_cases h3 : is_protected row <;> by_cases h4 : 4 < m <;>
        simp [h1, h2, h3, h4, Int.not_lt] <;> omega
    | some la =>
      by_cases h1 : is_private row <;> by_cases h2 : is_archived row <;>
        by_cases h3 : is_protected row <;> by_cases h4 : 4 < m <;>
        by_cases h5 : dtLE july_2_2025 la <;>
        simp [h1, h2, h3, h4, h5, Int.not_lt] <;> omega

theorem processRow_candidate_of (now : DateTime) (row : Row) (m : Int) (la : DateTime)
    (hm : parseMembers row.Members = some m)
    (h1 : is_private row = false) (h2 : is_archived row = false)
    (h3 : is_protected row = false) (h4 : m ≤ 4)
    (hla : parseLastActivity row.LastActivity = some la)
    (h5 : dtLE july_2_2025 la = false) :
    processRow now row = RowResult.candidate
      { name := row.Name, id := row.ID, members := m,
        last_activity := la, days_inactive := daysBetween now la } := by
  unfold processRow
  simp [hm, hla, h1, h2, h3, h5, Int.not_lt.mpr h4]

/-! ## The load pass as filterMap + stable sort, and its counters -/

theorem loadStep_fst (now : DateTime) (acc : List Channel × LoadStats) (row : Row) :
    (loadStep now acc row).1 = acc.1 ++ (toCandidate now row).toList := by
  unfold loadStep toCandidate
  cases processRow now row <;> simp [applyRowResult]

theorem loadFoldl_fst (now : DateTime) (rows : List Row) :
    ∀ (cs : List Channel) (st : LoadStats),
      (rows.foldl (loadStep now) (cs, st)).1 = cs ++ rows.filterMap (toCandidate now) := by
  induction rows with
  | nil => intro cs st; simp
  | cons row rows ih =>
    intro cs st
    rw [List.foldl_cons, List.filterMap_cons]
    calc (List.foldl (loadStep now) (loadStep now (cs, st) row) rows).1
        = (loadStep now (cs, st) row).1 ++ rows.filterMap (toCandidate now) :=
          ih (loadStep now (cs, st) row).1 (loadStep now (cs, st) row).2
      _ = cs ++ (toCandidate now row).toList ++ rows.filterMap (toCandidate now) := by
          rw [loadStep_fst]
      _ = _ := by cases htc : toCandidate now row <;> simp [htc]

/-- The filtered output is the stable sort of the rows' candidates in
source order. -/
theorem load_fst (now : DateTime) (rows : List Row) :
    (load_channels_from_csv now rows).1 =
      (rows.filterMap (toCandidate now)).mergeSort chanLE := by
  unfold load_channels_from_csv
  simp [loadFoldl_fst]

theorem loadFoldl_counter (now : DateTime) (f : LoadStats → Nat) (p : Row → Bool)
    (hstep : ∀ cs st row,
      f ((loadStep now (cs, st) row).2) = f st + (if p row then 1 else 0)) :
    ∀ (rows : List Row) (cs : List Channel) (st : LoadStats),
      f ((rows.foldl (loadStep now) (cs, st)).2) = f st + rows.countP p := by
  intro rows
  induction rows with
  | nil => intro cs st; simp
  | cons row rows ih =>
    intro cs st
    rw [List.foldl_cons]
    calc f (List.foldl (loadStep now) (loadStep now (cs, st) row) rows).2
        = f (loadStep now (cs, st) row).2 + rows.countP p :=
          ih (loadStep now (cs, st) row).1 (loadStep now (cs, st) row).2
      _ = f st + (if p row then 1 else 0) + rows.countP p := by rw [hstep]
      _ = _ := by rw [List.countP_cons]; omega

theorem loadStep_total (now : DateTime) (cs : List Channel) (st : LoadStats) (row : Row) :
    ((loadStep now (cs, st) row).2).total = st.total + 1 := by
  unfold loadStep
  cases processRow now row <;> simp [applyRowResult]

theorem loadStep_private (now : DateTime) (cs : List Channel) (st : LoadStats) (row : Row) :
    ((loadStep now (cs, st) row).2).skipped_private =
      st.skipped_private + (if firstMatchPrivate row then 1 else 0) := by
  unfold loadStep
  have hiff := processRow_private now row
  cases h : processRow now row <;> rw [h] at hiff <;> simp_all [applyRowResult]

theorem loadStep_archived (now : DateTime) (cs : List Channel) (st : LoadStats) (row : Row) :
    ((loadStep now (cs, st) row).2).skipped_archived =
      st.skipped_archived + (if firstMatchArchived row then 1 else 0) := by
  unfold loadStep
  have hiff := processRow_archived now row
  cases h : processRow now row <;> rw [h] at hiff <;> simp_all [applyRowResult]

theorem loadStep_protected (now : DateTime) (cs : List Channel) (st : LoadStats) (row : Row) :
    ((loadStep now (cs, st) row).2).skipped_protected =
      st.skipped_protected + (if firstMatchProtected row then 1 else 0) := by
  unfold loadStep
  have hiff := processRow_protected now row
  cases h : processRow now row <;> rw [h] at hiff <;> simp_all [applyRowResult]

theorem loadStep_members (now : DateTime) (cs : List Channel) (st : LoadStats) (row : Row) :
    ((loadStep now (cs, st) row).2).skipped_members =
      st.skipped_members + (if firstMatchMembers row then 1 else 0) := by
  unfold loadStep
  have hiff := processRow_members now row
  cases h : processRow now row <;> rw [h] at hiff <;> simp_all [applyRowResult]

theorem loadStep_active (now : DateTime) (cs : List Channel) (st : LoadStats) (row : Row) :
    ((loadStep now (cs, st) row).2).skipped_active =
      st.skipped_active + (if firstMatchActive row then 1 else 0) := by
  unfold loadStep
  have hiff := processRow_active now row
  cases h : processRow now row <;> rw [h] at hiff <;> simp_all [applyRowResult]

theorem loadStep_parseErrors (now : DateTime) (cs : List Channel) (st : LoadStats) (row : Row) :
    ((loadStep now (cs, st) row).2).parse_errors =
      st.parse_errors + (if rowParseError row then 1 else 0) := by
  unfold loadStep
  have hiff := processRow_parseError now row
  cases h : processRow now row <;> rw [h] at hiff <;> simp_all [applyRowResult]

/-- The load counters, characterised row-predicate by row-predicate. -/
theorem load_stats (now : DateTime) (rows : List Row) :
    (load_channels_from_csv now rows).2.total = rows.length ∧
    (load_channels_from_csv now rows).2.skipped_private = rows.countP firstMatchPrivate ∧
    (load_channels_from_csv now rows).2.skipped_archived = rows.countP firstMatchArchived ∧
    (load_channels_from_csv now rows).2.skipped_protected = rows.countP firstMatchProtected ∧
    (load_channels_from_csv now rows).2.skipped_members = rows.countP firstMatchMembers ∧
    (load_channels_from_csv now rows).2.skipped_active = rows.countP firstMatchActive ∧
    (load_channels_from_csv now rows).2.parse_errors = rows.countP rowParseError := by
  unfold load_channels_from_csv
  refine ⟨?_, ?_, ?_, ?_, ?_, ?_, ?_⟩ <;> simp only []
  · have := loadFoldl_counter now (fun st => st.total) (fun _ => true)
      (fun cs st row => by simpa using loadStep_total now cs st row) rows [] LoadStats.init
    simpa [List.countP_true, LoadStats.init] using this
  · simpa [LoadStats.init] using loadFoldl_counter now (fun st => st.skipped_private) firstMatchPrivate
      (loadStep_private now) rows [] LoadStats.init
  · simpa [LoadStats.init] using loadFoldl_counter now (fun st => st.skipped_archived) firstMatchArchived
      (loadStep_archived now) rows [] LoadStats.init
  · simpa [LoadStats.init] using loadFoldl_counter now (fun st => st.skipped_protected) firstMatchProtected
      (loadStep_protected now) rows [] LoadStats.init
  · simpa [LoadStats.init] using loadFoldl_counter now (fun st => st.skipped_members) firstMatchMembers
      (loadStep_members now) rows [] LoadStats.init
  · simpa [LoadStats.init] using loadFoldl_counter now (fun st => st.skipped_active) firstMatchActive
      (loadStep_active now) rows [] LoadStats.init
  · simpa [LoadStats.init] using loadFoldl_counter now (fun st => st.parse_errors) rowParseError
      (loadStep_parseErrors now) rows [] LoadStats.init

/-! ## The sort comparison is a total preorder -/

theorem keyLE_trans (p q r : Int × Int) (h1 : keyLE p q = true) (h2 : keyLE q r = true) :
    keyLE p r = true := by
  unfold keyLE at *
  split_ifs at h1 h2 ⊢ <;> simp_all <;> omega

theorem keyLE_total (p q : Int × Int) : (keyLE p q || keyLE q p) = true := by
  unfold keyLE
  split_ifs <;> simp <;> omega

theorem keyLE_refl (p : Int × Int) : keyLE p p = true := by
  unfold keyLE
  split_ifs <;> simp_all

theorem chanLE_trans (a b c : Channel) (h1 : chanLE a b = true) (h2 : chanLE b c = true) :
    chanLE a c = true :=
  keyLE_trans _ _ _ h1 h2

theorem chanLE_total (a b : Channel) : (chanLE a b || chanLE b a) = true :=
  keyLE_total _ _

/-! ## The archive loop, step by step -/

theorem archiveStep_processed (d : Bool) (o : Outcome) (s : RunStats) :
    ((archiveStep d o s).1).processed = s.processed + 1 := by
  unfold archiveStep
  rcases o with ⟨info, arch⟩
  rcases info with ⟨is_arch, num⟩ | ⟨code⟩ | _ <;> rcases arch with _ | ⟨code2⟩ | _ <;>
    (try simp) <;> (try split_ifs) <;> (try simp)

/-- Every branch of the per-record body adds exactly 1 to
`successful + failed + skipped`. -/
theorem archiveStep_sum (d : Bool) (o : Outcome) (s : RunStats) :
    ((archiveStep d o s).1).successful + ((archiveStep d o s).1).failed +
      ((archiveStep d o s).1).skipped = s.successful + s.failed + s.skipped + 1 := by
  unfold archiveStep
  rcases o with ⟨info, arch⟩
  rcases info with ⟨is_arch, num⟩ | ⟨code⟩ | _ <;> rcases arch with _ | ⟨code2⟩ | _ <;>
    (try simp) <;> (try split_ifs) <;> (try simp) <;> omega

/-- Whether the mutate call is invoked for a record depends only on the
mode and that record's verify outcome, never on the running counters. -/
theorem archiveStep_snd (d : Bool) (o : Outcome) (s : RunStats) :
    (archiveStep d o s).2 = (!d && eligibleInfo o.info) := by
  unfold archiveStep eligibleInfo
  rcases o with ⟨info, arch⟩
  rcases info with ⟨is_arch, num⟩ | ⟨code⟩ | _
  · cases is_arch <;> cases d <;> rcases arch with _ | ⟨code2⟩ | _ <;>
      simp <;> split_ifs <;> simp
  · simp only []
    split_ifs <;> simp
  · simp

/-- In dry-run mode `successful` is incremented exactly when the verify
step returns a non-archived channel. -/
theorem archiveStep_dry (o : Outcome) (s : RunStats) :
    ((archiveStep true o s).1).successful =
      s.successful + (if eligibleInfo o.info then 1 else 0) := by
  unfold archiveStep eligibleInfo
  rcases o with ⟨info, arch⟩
  rcases info with ⟨is_arch, num⟩ | ⟨code⟩ | _ <;> rcases arch with _ | ⟨code2⟩ | _ <;>
    simp <;> split_ifs <;> simp_all

theorem archiveFoldl_processed (d : Bool) (batch : List (Channel × Outcome)) :
    ∀ (s : RunStats) (tr : List Bool),
      (batch.foldl
        (fun acc r =>
          let st := archiveStep d r.2 acc.1
          (st.1, acc.2 ++ [st.2])) (s, tr)).1.processed = s.processed + batch.length := by
  induction batch with
  | nil => intro s tr; simp
  | cons r batch ih =>
    intro s tr
    rw [List.foldl_cons]
    calc _ = (archiveStep d r.2 s).1.processed + batch.length := ih _ _
      _ = _ := by rw [archiveStep_processed]; simp; omega

theorem archiveFoldl_sum (d : Bool) (batch : List (Channel × Outcome)) :
    ∀ (s : RunStats) (tr : List Bool),
      ((batch.foldl
        (fun acc r =>
          let st := archiveStep d r.2 acc.1
          (st.1, acc.2 ++ [st.2])) (s, tr)).1.successful +
       (batch.foldl
        (fun acc r =>
          let st := archiveStep d r.2 acc.1
          (st.1, acc.2 ++ [st.2])) (s, tr)).1.failed +
       (batch.foldl
        (fun acc r =>
          let st := archiveStep d r.2 acc.1
          (st.1, acc.2 ++ [st.2])) (s, tr)).1.skipped) =
      s.successful + s.failed + s.skipped + batch.length := by
  induction batch with
  | nil => intro s tr; simp
  | cons r batch ih =>
    intro s tr
    rw [List.foldl_cons]
    calc _ = (archiveStep d r.2 s).1.successful + (archiveStep d r.2 s).1.failed +
            (archiveStep d r.2 s).1.skipped + batch.length := ih _ _
      _ = _ := by rw [archiveStep_sum]; simp; omega

theorem archiveFoldl_trace (d : Bool) (batch : List (Channel × Outcome)) :
    ∀ (s : RunStats) (tr : List Bool),
      (batch.foldl
        (fun acc r =>
          let st := archiveStep d r.2 acc.1
          (st.1, acc.2 ++ [st.2])) (s, tr)).2 =
      tr ++ batch.map (fun r => !d && eligibleInfo r.2.info) := by
  induction batch with
  | nil => intro s tr; simp
  | cons r batch ih =>
    intro s tr
    rw [List.foldl_cons, List.map_cons]
    calc _ = (tr ++ [(archiveStep d r.2 s).2]) ++
            batch.map (fun r => !d && eligibleInfo r.2.info) := ih _ _
      _ = _ := by rw [archiveStep_snd]; simp

theorem archiveFoldl_dry_successful (batch : List (Channel × Outcome)) :
    ∀ (s : RunStats) (tr : List Bool),
      (batch.foldl
        (fun acc r =>
          let st := archiveStep true r.2 acc.1
          (st.1, acc.2 ++ [st.2])) (s, tr)).1.successful =
      s.successful + batch.countP (fun r => eligibleInfo r.2.info) := by
  induction batch with
  | nil => intro s tr; simp
  | cons r batch ih =>
    intro s tr
    rw [List.foldl_cons, List.countP_cons]
    calc _ = (archiveStep true r.2 s).1.successful +
            batch.countP (fun r => eligibleInfo r.2.info) := ih _ _
      _ = _ := by rw [archiveStep_dry]; omega

/-- The enumeration loop, described by index/channel pairs. -/
theorem chLines_eq (l : List Channel) :
    ∀ i, chLines i l =
      ((List.enumFrom i l).map (fun p => channelLine p.1 p.2)).foldr (· ++ ·) "" := by
  induction l with
  | nil => intro i; rfl
  | cons c cs ih => intro i; simp [chLines, List.enumFrom, ih]

/-! ## The claims -/

/-- C1: every row with `private=true`, `archived=true`, a protected name
(case-insensitively), a parsed member count above 4, or a parsed last
activity on/after the 2025-07-02 cutoff contributes no Candidate Record,
and everything in the filtered output is some row's candidate. -/
theorem claim_C1 (now : DateTime) (rows : List Row) (row : Row)
    (hmem : row ∈ rows)
    (hbad : is_private row = true ∨ is_archived row = true ∨ is_protected row = true ∨
      (∃ m, parseMembers row.Members = some m ∧ 4 < m) ∨
      (∃ la, parseLastActivity row.LastActivity = some la ∧ dtLE july_2_2025 la = true)) :
    toCandidate now row = none ∧
    ∀ c ∈ (load_channels_from_csv now rows).1, ∃ r ∈ rows, toCandidate now r = some c := by
  constructor
  · unfold toCandidate processRow
    rcases hbad with hb | hb | hb | ⟨m, hm, hgt⟩ | ⟨la, hla, hge⟩
    · cases hmm : parseMembers row.Members <;> simp [hb]
    · cases hmm : parseMembers row.Members <;> by_cases h1 : is_private row <;>
        simp [hb, h1]
    · cases hmm : parseMembers row.Members <;> by_cases h1 : is_private row <;>
        by_cases h2 : is_archived row <;> simp [hb, h1, h2]
    · rw [hm]
      by_cases h1 : is_private row <;> by_cases h2 : is_archived row <;>
        by_cases h3 : is_protected row <;> simp [h1, h2, h3, hgt]
    · cases hmm : parseMembers row.Members with
      | none => simp
      | some m =>
        by_cases h1 : is_private row <;> by_cases h2 : is_archived row <;>
          by_cases h3 : is_protected row <;> by_cases h4 : 4 < m <;>
          simp [h1, h2, h3, h4, hla, hge]
  · intro c hc
    rw [load_fst, List.mem_mergeSort] at hc
    obtain ⟨r, hr, he⟩ := List.mem_filterMap.mp hc
    exact ⟨r, hr, he⟩

/-- C1 witness: a concrete private row contributes nothing, on a concrete
single-row input. -/
theorem claim_C1_witness :
    toCandidate now0 w1row = none ∧
    ∀ c ∈ (load_channels_from_csv now0 [w1row]).1,
      ∃ r ∈ [w1row], toCandidate now0 r = some c :=
  claim_C1 now0 [w1row] w1row (by simp) (Or.inl (by decide))

/-- C2: the filtered output is a permutation of the surviving candidates,
pairwise ordered by ascending `member_count` with ties broken by
descending `days_inactive`; that comparison is total, and rows whose keys
compare equal keep their source order (stability). -/
theorem claim_C2 (now : DateTime) (rows : List Row) :
    List.Perm (load_channels_from_csv now rows).1 (rows.filterMap (toCandidate now)) ∧
    (load_channels_from_csv now rows).1.Pairwise (fun a b => chanLE a b = true) ∧
    (∀ a b : Channel, chanLE a b = true ∨ chanLE b a = true) ∧
    (∀ a b : Channel, chanKey a = chanKey b →
      List.Sublist [a, b] (rows.filterMap (toCandidate now)) →
      List.Sublist [a, b] (load_channels_from_csv now rows).1) := by
  refine ⟨?_, ?_, ?_, ?_⟩
  · rw [load_fst]; exact List.mergeSort_perm _ _
  · rw [load_fst]; exact List.sorted_mergeSort chanLE_trans chanLE_total _
  · intro a b; simpa using chanLE_total a b
  · intro a b hkey hsub
    rw [load_fst]
    refine List.pair_sublist_mergeSort chanLE_trans chanLE_total ?_ hsub
    show chanLE a b = true
    unfold chanLE
    rw [hkey]
    exact keyLE_refl _

/-- C2 witness: two concrete equal-key candidates keep their source order
in the sorted output. -/
theorem claim_C2_witness :
    List.Sublist [w2ca, w2cb] (load_channels_from_csv now0 [w2rowA, w2rowB]).1 :=
  (claim_C2 now0 [w2rowA, w2rowB]).2.2.2 w2ca w2cb (by decide) (by decide)

/-- C3: a record already archived remotely — whether the verify step
reports `is_archived` or the mutate call fails with `already_archived` —
increments `skipped` by 1, leaves `successful` and `failed` unchanged, is
never successfully mutated, and in the verify-detected case the mutate
call is never invoked at all. -/
theorem claim_C3 (dry : Bool) (o : Outcome) (s : RunStats)
    (h : (∃ nm, o.info = InfoRes.ok true nm) ∨
      ((∃ nm, o.info = InfoRes.ok false nm) ∧ dry = false ∧
        o.arch = ArchRes.apiErr "already_archived")) :
    (archiveStep dry o s).1.skipped = s.skipped + 1 ∧
    (archiveStep dry o s).1.successful = s.successful ∧
    (archiveStep dry o s).1.failed = s.failed ∧
    ((∃ nm, o.info = InfoRes.ok true nm) → (archiveStep dry o s).2 = false) ∧
    ¬((archiveStep dry o s).2 = true ∧ o.arch = ArchRes.ok) := by
  rcases o with ⟨info, arch⟩
  rcases h with ⟨nm, hi⟩ | ⟨⟨nm, hi⟩, hd, ha⟩
  · simp only [] at hi
    subst hi
    simp [archiveStep]
  · simp only [] at hi ha
    subst hi; subst hd; subst ha
    simp [archiveStep]

/-- C3 witness: both already-archived shapes at concrete inputs. -/
theorem claim_C3_witness :
    ((archiveStep false w3verify RunStats.init).1.skipped = RunStats.init.skipped + 1 ∧
     (archiveStep false w3verify RunStats.init).1.successful = RunStats.init.successful ∧
     (archiveStep false w3verify RunStats.init).1.failed = RunStats.init.failed ∧
     ((∃ nm, w3verify.info = InfoRes.ok true nm) →
       (archiveStep false w3verify RunStats.init).2 = false) ∧
     ¬((archiveStep false w3verify RunStats.init).2 = true ∧
       w3verify.arch = ArchRes.ok)) ∧
    ((archiveStep false w3mutate RunStats.init).1.skipped = RunStats.init.skipped + 1 ∧
     (archiveStep false w3mutate RunStats.init).1.successful = RunStats.init.successful ∧
     (archiveStep false w3mutate RunStats.init).1.failed = RunStats.init.failed ∧
     ((∃ nm, w3mutate.info = InfoRes.ok true nm) →
       (archiveStep false w3mutate RunStats.init).2 = false) ∧
     ¬((archiveStep false w3mutate RunStats.init).2 = true ∧
       w3mutate.arch = ArchRes.ok)) :=
  ⟨claim_C3 false w3verify RunStats.init (Or.inl ⟨2, rfl⟩),
   claim_C3 false w3mutate RunStats.init (Or.inr ⟨⟨2, rfl⟩, rfl, rfl⟩)⟩

/-- C4: the dry run never invokes the mutate call for any record of any
batch, and `successful` counts exactly the records whose verify step
reports a non-archived channel. -/
theorem claim_C4 (batch : List (Channel × Outcome)) :
    (archive_channels true batch).2 = List.replicate batch.length false ∧
    (archive_channels true batch).1.successful =
      batch.countP (fun r => eligibleInfo r.2.info) := by
  constructor
  · unfold archive_channels
    rw [archiveFoldl_trace]
    have : ∀ (l : List (Channel × Outcome)),
        l.map (fun r => !true && eligibleInfo r.2.info) = List.replicate l.length false := by
      intro l
      induction l with
      | nil => rfl
      | cons x xs ih => simp [ih, List.replicate_succ]
    simpa using this batch
  · unfold archive_channels
    rw [archiveFoldl_dry_successful]
    simp [RunStats.init]

/-- C8: for every batch and every sequence of per-record remote outcomes
(arbitrary error codes and non-remote failures included) the loop
processes the whole batch — `processed` equals the batch length and there
is exactly one mutate-decision per record, with no retry, no early abort,
and no exception escaping (the step is a total function of the outcome). -/
theorem claim_C8 (dry : Bool) (batch : List (Channel × Outcome)) :
    (archive_channels dry batch).1.processed = batch.length ∧
    (archive_channels dry batch).2.length = batch.length := by
  constructor
  · unfold archive_channels
    rw [archiveFoldl_processed]
    simp [RunStats.init]
  · unfold archive_channels
    rw [archiveFoldl_trace]
    simp

/-- C10: `processed = successful + failed + skipped` holds in the returned
statistics for every batch and outcome sequence, and after every record
(every prefix of the batch). -/
theorem claim_C10 (dry : Bool) (batch : List (Channel × Outcome)) (n : Nat) :
    ((archive_channels dry batch).1.processed =
      (archive_channels dry batch).1.successful +
        (archive_channels dry batch).1.failed +
        (archive_channels dry batch).1.skipped) ∧
    ((archive_channels dry (batch.take n)).1.processed =
      (archive_channels dry (batch.take n)).1.successful +
        (archive_channels dry (batch.take n)).1.failed +
        (archive_channels dry (batch.take n)).1.skipped) := by
  have key : ∀ (b : List (Channel × Outcome)),
      (archive_channels dry b).1.processed =
        (archive_channels dry b).1.successful + (archive_channels dry b).1.failed +
          (archive_channels dry b).1.skipped := by
    intro b
    unfold archive_channels
    have h1 := archiveFoldl_processed dry b RunStats.init []
    have h2 := archiveFoldl_sum dry b RunStats.init []
    rw [h1, h2]
    simp [RunStats.init]
  exact ⟨key batch, key (batch.take n)⟩

/-- C5 counterexample: a row with `private=true` whose member-count field
does not parse increments the parse-error counter, not the private-skip
counter — the `int()` call precedes the private rule, so the rule order
of the claim does not hold for every field combination. -/
theorem claim_C5_cex :
    is_private c5row = true ∧
    (load_channels_from_csv now0 [c5row]).2.skipped_private = 0 ∧
    (load_channels_from_csv now0 [c5row]).2.parse_errors = 1 := by
  refine ⟨by decide, by decide, by decide⟩

/-- C5 (amended): the five rules are applied in the fixed order private,
archived, protected, `member_count > 4`, activity-cutoff, first match
wins, and each increments exactly its own counter — provided the
member-count field parses (an unparseable member count increments the
parse-error counter before any rule is checked) and, for rule 5, the
timestamp parses (the timestamp parse sits between rules 4 and 5). The
counters therefore count exactly the following row predicates. -/
theorem claim_C5_amended (now : DateTime) (rows : List Row) :
    (load_channels_from_csv now rows).2.total = rows.length ∧
    (load_channels_from_csv now rows).2.skipped_private = rows.countP firstMatchPrivate ∧
    (load_channels_from_csv now rows).2.skipped_archived = rows.countP firstMatchArchived ∧
    (load_channels_from_csv now rows).2.skipped_protected = rows.countP firstMatchProtected ∧
    (load_channels_from_csv now rows).2.skipped_members = rows.countP firstMatchMembers ∧
    (load_channels_from_csv now rows).2.skipped_active = rows.countP firstMatchActive ∧
    (load_channels_from_csv now rows).2.parse_errors = rows.countP rowParseError :=
  load_stats now rows

/-- C6: the activity cutoff is half-open. A row passing rules 1–4 whose
parsed timestamp is strictly before 2025-07-02 00:00:00 appears in the
filtered output; one whose timestamp is at or after the cutoff is
excluded by the activity rule. -/
theorem claim_C6 (now : DateTime) (rows : List Row) (row : Row) (m : Int) (la : DateTime)
    (hmem : row ∈ rows)
    (hm : parseMembers row.Members = some m)
    (h1 : is_private row = false) (h2 : is_archived row = false)
    (h3 : is_protected row = false) (h4 : m ≤ 4)
    (hla : parseLastActivity row.LastActivity = some la) :
    (dtLT la july_2_2025 = true →
      { name := row.Name, id := row.ID, members := m, last_activity := la,
        days_inactive := daysBetween now la } ∈ (load_channels_from_csv now rows).1) ∧
    (dtLE july_2_2025 la = true → processRow now row = RowResult.skippedActive) := by
  constructor
  · intro hlt
    have h5 : dtLE july_2_2025 la = false := by
      have hx := dtLT_eq_not_dtLE la july_2_2025
      rw [hlt] at hx
      cases hy : dtLE july_2_2025 la <;> simp [hy] at hx <;> simp_all
    rw [load_fst, List.mem_mergeSort]
    refine List.mem_filterMap.mpr ⟨row, hmem, ?_⟩
    unfold toCandidate
    rw [processRow_candidate_of now row m la hm h1 h2 h3 h4 hla h5]
  · intro h5
    rw [processRow_active]
    unfold firstMatchActive
    rw [hm, hla]
    simp [h1, h2, h3, h4, h5]

/-- C6 witness: a concrete June-1 row is in the output; a concrete row at
exactly the cutoff instant is excluded by the activity rule. -/
theorem claim_C6_witness :
    ({ name := w6row.Name, id := w6row.ID, members := 3,
       last_activity := ⟨2025, 6, 1, 10, 0, 0⟩,
       days_inactive := daysBetween now0 ⟨2025, 6, 1, 10, 0, 0⟩ } ∈
      (load_channels_from_csv now0 [w6row]).1) ∧
    processRow now0 w6late = RowResult.skippedActive :=
  ⟨(claim_C6 now0 [w6row] w6row 3 ⟨2025, 6, 1, 10, 0, 0⟩ (by simp) (by decide)
      (by decide) (by decide) (by decide) (by decide) (by decide)).1 (by decide),
   (claim_C6 now0 [w6late] w6late 3 ⟨2025, 7, 2, 0, 0, 0⟩ (by simp) (by decide)
      (by decide) (by decide) (by decide) (by decide) (by decide)).2 (by decide)⟩

/-- C7 counterexample: a private row whose last-activity field is
unparseable is excluded by the private rule, so the parse-error counter
is not incremented — the claim's "increments the parse-error counter"
fails for rows that an earlier rule removes before the timestamp parse. -/
theorem claim_C7_cex :
    parseLastActivity c7row.LastActivity = none ∧
    is_private c7row = true ∧
    (load_channels_from_csv now0 [c7row]).2.parse_errors = 0 ∧
    (load_channels_from_csv now0 [c7row]).2.skipped_private = 1 := by
  refine ⟨by decide, by decide, by decide, by decide⟩

/-- C7 (amended): a row that actually throws during parsing — member
count unparseable, or rules 1–4 passed and the timestamp unparseable —
is excluded from the output, increments the parse-error counter by
exactly 1, and leaves the rest of the output untouched: loading with the
row inserted anywhere yields the same candidate list as without it. -/
theorem claim_C7_amended (now : DateTime) (pre post : List Row) (row : Row)
    (h : processRow now row = RowResult.parseError) :
    (load_channels_from_csv now (pre ++ row :: post)).1 =
      (load_channels_from_csv now (pre ++ post)).1 ∧
    (load_channels_from_csv now (pre ++ row :: post)).2.parse_errors =
      (load_channels_from_csv now (pre ++ post)).2.parse_errors + 1 := by
  constructor
  · rw [load_fst, load_fst]
    have hnone : toCandidate now row = none := by
      unfold toCandidate
      rw [h]
    rw [List.filterMap_append, List.filterMap_append, List.filterMap_cons, hnone]
  · have hp := (load_stats now (pre ++ row :: post)).2.2.2.2.2.2
    have hq := (load_stats now (pre ++ post)).2.2.2.2.2.2
    have hrow : rowParseError row = true := (processRow_parseError now row).mp h
    rw [hp, hq, List.countP_append, List.countP_append, List.countP_cons, hrow]
    simp
    omega

/-- C7 witness: a concrete row with an unparseable member count, inserted
before a good row, adds one parse error and leaves the output unchanged. -/
theorem claim_C7_witness :
    ((load_channels_from_csv now0 ([] ++ w7bad :: [w7good])).1 =
      (load_channels_from_csv now0 ([] ++ [w7good])).1) ∧
    ((load_channels_from_csv now0 ([] ++ w7bad :: [w7good])).2.parse_errors =
      (load_channels_from_csv now0 ([] ++ [w7good])).2.parse_errors + 1) :=
  claim_C7_amended now0 [] [w7good] w7bad (by decide)

/-- C9: the notification enumerates the batch entries with 1-based
indices, name, member count and formatted last-active date; at most the
first 50 are enumerated, a batch beyond 50 gets a truncation line naming
the remaining count, and a batch of at most 50 is enumerated in full with
no truncation line. -/
theorem claim_C9 (now : DateTime) (chs : List Channel) :
    (chs.length ≤ 50 →
      notificationMessage now chs =
        notificationHeader now chs ++
        ((List.enumFrom 1 chs).map (fun p => channelLine p.1 p.2)).foldr (· ++ ·) "" ++
        notificationFooter now) ∧
    (50 < chs.length →
      notificationMessage now chs =
        notificationHeader now chs ++
        ((List.enumFrom 1 (chs.take 50)).map (fun p => channelLine p.1 p.2)).foldr (· ++ ·) "" ++
        ("\n... and " ++ toString (chs.length - 50) ++ " more channels\n") ++
        notificationFooter now) := by
  constructor
  · intro hle
    unfold notificationMessage truncLine
    rw [List.take_of_length_le hle, if_neg (by omega), chLines_eq chs 1,
      String.append_empty]
  · intro hgt
    unfold notificationMessage truncLine
    rw [if_pos hgt, chLines_eq (chs.take 50) 1]

/-- C9 witness: a batch of 3 is enumerated in full with no truncation; a
batch of 60 is truncated to the first 50 plus a remaining-count line. -/
theorem claim_C9_witness :
    (notificationMessage now0 (List.replicate 3 w9ch) =
      notificationHeader now0 (List.replicate 3 w9ch) ++
      ((List.enumFrom 1 (List.replicate 3 w9ch)).map
        (fun p => channelLine p.1 p.2)).foldr (· ++ ·) "" ++
      notificationFooter now0) ∧
    (notificationMessage now0 (List.replicate 60 w9ch) =
      notificationHeader now0 (List.replicate 60 w9ch) ++
      ((List.enumFrom 1 ((List.replicate 60 w9ch).take 50)).map
        (fun p => channelLine p.1 p.2)).foldr (· ++ ·) "" ++
      ("\n... and " ++ toString ((List.replicate 60 w9ch).length - 50) ++ " more channels\n") ++
      notificationFooter now0) :=
  ⟨(claim_C9 now0 (List.replicate 3 w9ch)).1 (by simp),
   (claim_C9 now0 (List.replicate 60 w9ch)).2 (by simp)⟩

end SlackArchive
